import Mathlib

/-!
Verification of the OpenGlitch mesh-loader core against its specification.

The development shallowly embeds the relocation ("fixup") machinery and the
platform-specific vertex decoders of the repository:

- the pointer fixup passes of repack/src/st.rs and repack/src/raw.rs
  (free function fix_offset, array_ptr, try_fix_array, trait Fixable with
  its swap-then-fix default method), together with the third rewrite in
  src/formats/mesh/raw.rs (load_memory_struct with the Ptr wrapper);
- the FMesh header accessors (bones, segments, lights, materials,
  tex_layers, skeleton_index) of repack/src/st.rs;
- the GameCube vertex decoder of repack/src/raw/gc.rs
  (GxVertexBuffer::positions / normalized / get_position and the
  POS_FRACTIONAL_ADJUSTMENT table);
- the DirectX8 vertex decoder of repack/src/raw/dx.rs
  (DxVertexBufferDescriptor::buffer_values / positions);
- the cursor parser NullableFilePtr::read_options of src/formats/types.rs.

Modelling conventions: machine addresses and unsigned integers are Nat with
0 the null pointer; signed stored components are Int; f32 values reached by
the claims are exactly representable rationals (casts of i8/i16 components
and multiplications by a power-of-two reciprocal are exact in IEEE f32 for
the magnitudes involved, so Rat is bit-faithful on these code paths); a
computation that can panic returns a RustResult, whose panicked constructor
records the panic message.  Memory behind a relocated pointer is modelled
as a function from addresses to (typed) values.
-/

/-- Host endianness: the value of the Rust target_endian configuration
option, which is always one of "little" and "big". -/
inductive Endian where
  | little
  | big
deriving DecidableEq, Repr

/-- Condition of the conditional byte-swap in the default Fixable::fix of
repack/src/st.rs: the swap pass is compiled in under
cfg(not(target_endian = "little")), so it runs exactly on hosts whose
endianness is not little. -/
def stSwapRuns (host : Endian) : Bool := host != Endian.little

/-- Condition of the conditional byte-swap in the default Fixable::fix of
repack/src/raw.rs: cfg(not(target_endian = "big")), so it runs exactly on
hosts whose endianness is not big. -/
def rawSwapRuns (host : Endian) : Bool := host != Endian.big

/-- Condition of the root byte-swap in load_memory_struct of
src/formats/mesh/raw.rs: cfg(not(target_endian = "big")). -/
def meshRawSwapRuns (host : Endian) : Bool := host != Endian.big

/-- Byte reversal of a 32-bit value, as performed by u32::swap_bytes (the
operation the SwapBytes derive applies to every 4-byte field). -/
def swap32 (v : Nat) : Nat :=
  let b0 := v % 256
  let b1 := v / 256 % 256
  let b2 := v / 65536 % 256
  let b3 := v / 16777216 % 256
  ((b0 * 256 + b1) * 256 + b2) * 256 + b3

/-- Relocation of a single stored offset: free function fix_offset of
repack/src/st.rs (identical in repack/src/raw.rs).  A null pointer is
returned unchanged; any other stored value has the blob base address added
to it, with no comparison against the blob length anywhere. -/
def fix_offset (offset base : Nat) : Nat :=
  if offset = 0 then offset else base + offset

/-- Pointer relocation of the Ptr wrapper in src/formats/mesh/raw.rs
(Ptr::offset): same null test, then value += base. -/
def ptr_offset (value base : Nat) : Nat :=
  if value = 0 then value else value + base

/-- array_ptr of repack/src/st.rs: casts a pointer to a slice of length
elements, returning none exactly for the null pointer.  Memory is modelled
per element type by a function mem from byte addresses to element values;
element i of an array at address p is mem (p + i * elemSize). -/
def array_ptr {α : Type} (mem : Nat → α) (elemSize p length : Nat) :
    Option (List α) :=
  if p = 0 then none
  else some ((List.range length).map fun i => mem (p + i * elemSize))

/-- try_fix_array of repack/src/st.rs: relocate the pointer field itself
with fix_offset, then, when the relocated pointer is not null, fix each of
the length elements behind it.  The result is the relocated pointer
together with the fixed element list (the write-back of the fixed elements
into memory is represented by returning the list).  No length or blob-size
validation takes place. -/
def try_fix_array {α : Type} (mem : Nat → α) (elemFix : α → α)
    (elemSize offset base length : Nat) : Nat × Option (List α) :=
  let p := fix_offset offset base
  match array_ptr mem elemSize p length with
  | none => (p, none)
  | some xs => (p, some (xs.map elemFix))

/-- Count and pointer fields of the FMesh header of repack/src/st.rs that
the loader and accessors use (the name buffer, bounding volumes, flag words
and LOD table carry no offsets and are omitted; counts are u8 values,
pointer fields hold the stored 32-bit blob-relative offsets). -/
structure FMesh where
  bone_count : Nat
  segment_count : Nat
  tex_layer_id_count : Nat
  light_count : Nat
  material_count : Nat
  coll_tree_count : Nat
  segment_array : Nat
  bone_array : Nat
  light_array : Nat
  skeleton_index_array : Nat
  material_array : Nat
  collision_tree : Nat
  tex_layer_array : Nat
deriving Repr, DecidableEq

/-- Byte-swap pass of the SwapBytes derive on FMesh, projected to the
embedded fields: each 32-bit pointer field is byte-reversed; the u8 count
fields are single bytes and unchanged by a byte swap. -/
def FMesh.swapBytes (m : FMesh) : FMesh :=
  { m with
    segment_array := swap32 m.segment_array
    bone_array := swap32 m.bone_array
    light_array := swap32 m.light_array
    skeleton_index_array := swap32 m.skeleton_index_array
    material_array := swap32 m.material_array
    collision_tree := swap32 m.collision_tree
    tex_layer_array := swap32 m.tex_layer_array }

/-- Offset-fixing pass of impl Fixable for FMesh (repack/src/st.rs,
fix_offset method): every header pointer field is relocated with
fix_offset; material_array and tex_layer_array additionally have their
elements fixed in memory via try_fix_array, which leaves the header
pointer value itself at fix_offset of the stored offset. -/
def FMesh.fixOffset (m : FMesh) (base : Nat) : FMesh :=
  { m with
    segment_array := fix_offset m.segment_array base
    bone_array := fix_offset m.bone_array base
    light_array := fix_offset m.light_array base
    skeleton_index_array := fix_offset m.skeleton_index_array base
    collision_tree := fix_offset m.collision_tree base
    material_array := fix_offset m.material_array base
    tex_layer_array := fix_offset m.tex_layer_array base }

/-- Default Fixable::fix of repack/src/st.rs applied to FMesh: byte-swap
when stSwapRuns holds for the host, then fix the offsets. -/
def FMesh.stFix (m : FMesh) (host : Endian) (base : Nat) : FMesh :=
  FMesh.fixOffset (if stSwapRuns host then m.swapBytes else m) base

/-- Default Fixable::fix of repack/src/raw.rs applied to FMesh: identical
except that the byte-swap condition is rawSwapRuns. -/
def FMesh.rawFix (m : FMesh) (host : Endian) (base : Nat) : FMesh :=
  FMesh.fixOffset (if rawSwapRuns host then m.swapBytes else m) base

/-- FMesh::segments of repack/src/st.rs.  The segment element memory and
the element size are abstract parameters. -/
def FMesh.segments {α : Type} (m : FMesh) (mem : Nat → α) (sz : Nat) :
    Option (List α) :=
  array_ptr mem sz m.segment_array m.segment_count

/-- FMesh::bones of repack/src/st.rs. -/
def FMesh.bones {α : Type} (m : FMesh) (mem : Nat → α) (sz : Nat) :
    Option (List α) :=
  array_ptr mem sz m.bone_array m.bone_count

/-- FMesh::lights of repack/src/st.rs. -/
def FMesh.lights {α : Type} (m : FMesh) (mem : Nat → α) (sz : Nat) :
    Option (List α) :=
  array_ptr mem sz m.light_array m.light_count

/-- FMesh::materials of repack/src/st.rs. -/
def FMesh.materials {α : Type} (m : FMesh) (mem : Nat → α) (sz : Nat) :
    Option (List α) :=
  array_ptr mem sz m.material_array m.material_count

/-- FMesh::tex_layers of repack/src/st.rs. -/
def FMesh.tex_layers {α : Type} (m : FMesh) (mem : Nat → α) (sz : Nat) :
    Option (List α) :=
  array_ptr mem sz m.tex_layer_array m.tex_layer_id_count

/-- FMesh::skeleton_index of repack/src/st.rs: after a null test on the
array pointer, the byte at array + index is read unconditionally (the
structure stores no length for this array, and no bounds check occurs). -/
def FMesh.skeleton_index (m : FMesh) (mem : Nat → Nat) (index : Nat) :
    Option Nat :=
  if m.skeleton_index_array = 0 then none
  else some (mem (m.skeleton_index_array + index))

/-- Result of running a piece of the Rust code that may panic.  The
panicked constructor records the panic message; castUB marks the one
situation the embedding does not model: an unchecked pointer cast applied
to memory that holds elements of a different type (undefined behaviour in
the source, reachable only from a type-inconsistent buffer). -/
inductive RustResult (α : Type) where
  | ok (value : α)
  | panicked (msg : String)
  | castUB
deriving Repr, DecidableEq

/-- Position record of three signed 8-bit components (GxPosS8 of
repack/src/raw/gc.rs). -/
structure GxPosS8 where
  x : Int
  y : Int
  z : Int
deriving Repr, DecidableEq

/-- Position record of three signed 16-bit components (GxPosS16). -/
structure GxPosS16 where
  x : Int
  y : Int
  z : Int
deriving Repr, DecidableEq

/-- Paired position and normal record used by skinned buffers
(GxSkinPosNorm). -/
structure GxSkinPosNorm where
  position : GxPosS16
  normal : GxPosS16
deriving Repr, DecidableEq

/-- Position record of three 32-bit floats (GxPosF32); the float values on
the decode paths under verification are exactly representable, so they are
carried as rationals. -/
structure GxPosF32 where
  x : ℚ
  y : ℚ
  z : ℚ
deriving Repr, DecidableEq

/-- The typed content of the memory behind position_buffer: one of the
four element layouts the unchecked casts of positions_typed can produce. -/
inductive GxStorage where
  | s8 (values : List GxPosS8)
  | s16 (values : List GxPosS16)
  | skinnedS16 (values : List GxSkinPosNorm)
  | f32 (values : List GxPosF32)
deriving Repr, DecidableEq

/-- The typed views returned by GxVertexBuffer::positions
(GxVertexBufferPosition of repack/src/raw/gc.rs). -/
inductive GxVertexBufferPosition where
  | s8 (values : List GxPosS8)
  | s16 (values : List GxPosS16)
  | skinnedS16 (values : List GxSkinPosNorm)
  | f32 (values : List GxPosF32)
deriving Repr, DecidableEq

/-- The fields of GxVertexBuffer (repack/src/raw/gc.rs) that position
decoding reads: the SKINNED bit of the flags, the raw position-type tag
byte (GxCompType stores U8 = 0, S8 = 1, U16 = 2, S16 = 3, F32 = 4), the
fractional-bits byte, and the position buffer pointer (none = null),
modelled together with the typed element data behind it.  The slice length
used by the casts is position_count, which equals the length of the stored
list. -/
structure GxVertexBuffer where
  skinned : Bool
  position_type : Nat
  position_fraction_bits : Nat
  position_buffer : Option GxStorage
deriving Repr, DecidableEq

/-- The static POS_FRACTIONAL_ADJUSTMENT table of repack/src/raw/gc.rs,
with its sixteen literal reciprocal entries. -/
def POS_FRACTIONAL_ADJUSTMENT : List ℚ :=
  [1, 1 / 2, 1 / 4, 1 / 8, 1 / 16, 1 / 32, 1 / 64, 1 / 128, 1 / 256,
   1 / 512, 1 / 1024, 1 / 2048, 1 / 4096, 1 / 8192, 1 / 16384, 1 / 32768]

/-- GxVertexBuffer::positions of repack/src/raw/gc.rs: dispatch on the
position-type tag.  S8 (1), S16 (3, with the SKINNED flag selecting the
paired record) and F32 (4) produce the typed view of the buffer, with none
returned for a null buffer pointer; every other tag value falls into the
wildcard arm, which panics. -/
def GxVertexBuffer.positions (vb : GxVertexBuffer) :
    RustResult (Option GxVertexBufferPosition) :=
  match vb.position_type with
  | 1 =>
    match vb.position_buffer with
    | none => .ok none
    | some (.s8 vs) => .ok (some (.s8 vs))
    | some _ => .castUB
  | 3 =>
    if vb.skinned then
      match vb.position_buffer with
      | none => .ok none
      | some (.skinnedS16 vs) => .ok (some (.skinnedS16 vs))
      | some _ => .castUB
    else
      match vb.position_buffer with
      | none => .ok none
      | some (.s16 vs) => .ok (some (.s16 vs))
      | some _ => .castUB
  | 4 =>
    match vb.position_buffer with
    | none => .ok none
    | some (.f32 vs) => .ok (some (.f32 vs))
    | some _ => .castUB
  | _ => .panicked "Unsupported vertex position data type"

/-- GxVertexBuffer::normalized of repack/src/raw/gc.rs: expect on
positions, then look up the fractional adjustment (binding it to a local
that the function body never uses, exactly as the source does), then push
the raw components cast to f32 without applying the adjustment; F32 values
are copied verbatim. -/
def GxVertexBuffer.normalized (vb : GxVertexBuffer) :
    RustResult (List GxPosF32) :=
  match vb.positions with
  | .castUB => .castUB
  | .panicked msg => .panicked msg
  | .ok none => .panicked "Vertex buffer positions are invalid"
  | .ok (some positions) =>
    match POS_FRACTIONAL_ADJUSTMENT[vb.position_fraction_bits]? with
    | none => .panicked "Missing fractional adjustment for vertex buffer"
    | some _adjust =>
      .ok (match positions with
        | .s8 vs => vs.map fun v => ⟨(v.x : ℚ), (v.y : ℚ), (v.z : ℚ)⟩
        | .s16 vs => vs.map fun v => ⟨(v.x : ℚ), (v.y : ℚ), (v.z : ℚ)⟩
        | .skinnedS16 vs =>
          vs.map fun v =>
            ⟨(v.position.x : ℚ), (v.position.y : ℚ), (v.position.z : ℚ)⟩
        | .f32 vs => vs)

/-- GxVertexBuffer::get_position of repack/src/raw/gc.rs: the same two
expect calls, then the element at the requested index (none when out of
range), with each non-float component cast to f32 and multiplied by the
adjustment; F32 elements are returned verbatim. -/
def GxVertexBuffer.get_position (vb : GxVertexBuffer) (index : Nat) :
    RustResult (Option GxPosF32) :=
  match vb.positions with
  | .castUB => .castUB
  | .panicked msg => .panicked msg
  | .ok none => .panicked "Vertex buffer positions are invalid"
  | .ok (some positions) =>
    match POS_FRACTIONAL_ADJUSTMENT[vb.position_fraction_bits]? with
    | none => .panicked "Missing fractional adjustment for vertex buffer"
    | some adjust =>
      .ok (match positions with
        | .s8 vs =>
          (vs[index]?).map fun v =>
            ⟨(v.x : ℚ) * adjust, (v.y : ℚ) * adjust, (v.z : ℚ) * adjust⟩
        | .s16 vs =>
          (vs[index]?).map fun v =>
            ⟨(v.x : ℚ) * adjust, (v.y : ℚ) * adjust, (v.z : ℚ) * adjust⟩
        | .skinnedS16 vs =>
          (vs[index]?).map fun v =>
            ⟨(v.position.x : ℚ) * adjust, (v.position.y : ℚ) * adjust,
             (v.position.z : ℚ) * adjust⟩
        | .f32 vs => vs[index]?)

/-- Vertex record with 1 normal, 1 color, 1 texture-coordinate pair
(struct N1C1T1 of repack/src/raw/dx.rs); f32 fields are exact rationals,
the packed color is the raw u32. -/
structure DxN1C1T1 where
  position : ℚ × ℚ × ℚ
  normal : ℚ × ℚ × ℚ
  diffuse_rgba : Nat
  st_0 : ℚ × ℚ
deriving Repr, DecidableEq

/-- Vertex record N1C1T2 of repack/src/raw/dx.rs. -/
structure DxN1C1T2 where
  position : ℚ × ℚ × ℚ
  normal : ℚ × ℚ × ℚ
  diffuse_rgba : Nat
  st_0 : ℚ × ℚ
  st_1 : ℚ × ℚ
deriving Repr, DecidableEq

/-- Vertex record N1W3C1T1 of repack/src/raw/dx.rs. -/
structure DxN1W3C1T1 where
  position : ℚ × ℚ × ℚ
  weight : ℚ × ℚ × ℚ
  normal : ℚ × ℚ × ℚ
  diffuse_rgba : Nat
  st_0 : ℚ × ℚ
deriving Repr, DecidableEq

/-- Vertex record N1W3C1T2 of repack/src/raw/dx.rs. -/
structure DxN1W3C1T2 where
  position : ℚ × ℚ × ℚ
  weight : ℚ × ℚ × ℚ
  normal : ℚ × ℚ × ℚ
  diffuse_rgba : Nat
  st_0 : ℚ × ℚ
  st_1 : ℚ × ℚ
deriving Repr, DecidableEq

/-- Post-transformed-and-lit vertex record TLC2T2 of repack/src/raw/dx.rs. -/
structure DxTLC2T2 where
  position : ℚ × ℚ × ℚ
  rhw : ℚ
  diffuse_rgba : Nat
  specular_rgba : Nat
  st_0 : ℚ × ℚ
  st_1 : ℚ × ℚ
deriving Repr, DecidableEq

/-- Vertex record C1 of repack/src/raw/dx.rs. -/
structure DxC1 where
  color : ℚ × ℚ × ℚ
deriving Repr, DecidableEq

/-- Vertex record C1T1 of repack/src/raw/dx.rs. -/
structure DxC1T1 where
  color : ℚ × ℚ × ℚ
  diffuse_rgba : Nat
  st_0 : ℚ × ℚ
deriving Repr, DecidableEq

/-- The typed content of the memory behind the vertex_buffer pointer of a
DirectX8 vertex buffer descriptor: one of the seven record layouts the
unchecked cast in buffer_values can produce. -/
inductive DxStorage where
  | n1c1t1 (values : List DxN1C1T1)
  | n1c1t2 (values : List DxN1C1T2)
  | n1w3c1t1 (values : List DxN1W3C1T1)
  | n1w3c1t2 (values : List DxN1W3C1T2)
  | tlc2t2 (values : List DxTLC2T2)
  | c1 (values : List DxC1)
  | c1t1 (values : List DxC1T1)
deriving Repr, DecidableEq

/-- The tagged views returned by buffer_values (enum DxVertexBufferValues
of repack/src/raw/dx.rs). -/
inductive DxVertexBufferValues where
  | n1c1t1 (values : List DxN1C1T1)
  | n1c1t2 (values : List DxN1C1T2)
  | n1w3c1t1 (values : List DxN1W3C1T1)
  | n1w3c1t2 (values : List DxN1W3C1T2)
  | tlc2t2 (values : List DxTLC2T2)
  | c1 (values : List DxC1)
  | c1t1 (values : List DxC1T1)
deriving Repr, DecidableEq

/-- The fields of DxVertexBufferDescriptor (repack/src/raw/dx.rs) that the
decode operations read: the vertex count, the stride, the layout tag
(enum DxVertexBufferType, stored as i8: Shader = -1, N1C1T1 = 0,
N1C1T2 = 1, N1W3C1T1 = 2, N1W3C1T2 = 3, TLC2T2 = 4, C1 = 5, C1T1 = 6) and
the vertex buffer pointer (none = null) together with the typed element
data behind it. -/
structure DxVertexBufferDescriptor where
  vertex_count : Nat
  bytes_per_vertex : Nat
  info_index : Int
  vertex_buffer : Option DxStorage
deriving Repr, DecidableEq

/-- DxVertexBufferDescriptor::buffer_values of repack/src/raw/dx.rs:
Shader returns None immediately; each of the seven fixed layouts casts the
vertex buffer to a slice of vertex_count records via array_ptr_mut, which
yields None for a null buffer pointer.  A tag value outside the enum has
no behaviour (invalid discriminant), marked castUB. -/
def DxVertexBufferDescriptor.buffer_values (d : DxVertexBufferDescriptor) :
    RustResult (Option DxVertexBufferValues) :=
  match d.info_index with
  | -1 => .ok none
  | 0 =>
    match d.vertex_buffer with
    | none => .ok none
    | some (.n1c1t1 vs) => .ok (some (.n1c1t1 vs))
    | some _ => .castUB
  | 1 =>
    match d.vertex_buffer with
    | none => .ok none
    | some (.n1c1t2 vs) => .ok (some (.n1c1t2 vs))
    | some _ => .castUB
  | 2 =>
    match d.vertex_buffer with
    | none => .ok none
    | some (.n1w3c1t1 vs) => .ok (some (.n1w3c1t1 vs))
    | some _ => .castUB
  | 3 =>
    match d.vertex_buffer with
    | none => .ok none
    | some (.n1w3c1t2 vs) => .ok (some (.n1w3c1t2 vs))
    | some _ => .castUB
  | 4 =>
    match d.vertex_buffer with
    | none => .ok none
    | some (.tlc2t2 vs) => .ok (some (.tlc2t2 vs))
    | some _ => .castUB
  | 5 =>
    match d.vertex_buffer with
    | none => .ok none
    | some (.c1 vs) => .ok (some (.c1 vs))
    | some _ => .castUB
  | 6 =>
    match d.vertex_buffer with
    | none => .ok none
    | some (.c1t1 vs) => .ok (some (.c1t1 vs))
    | some _ => .castUB
  | _ => .castUB

/-- DxVertexBufferDescriptor::positions of repack/src/raw/dx.rs: unwrap
the result of buffer_values (panicking when it is None, which includes
every Shader-tagged buffer), then collect the position field of each
record; the C1 and C1T1 arms are unfinished in the source and panic with
the message of the todo macro. -/
def DxVertexBufferDescriptor.positions (d : DxVertexBufferDescriptor) :
    RustResult (List (ℚ × ℚ × ℚ)) :=
  match d.buffer_values with
  | .castUB => .castUB
  | .panicked msg => .panicked msg
  | .ok none => .panicked "called Option::unwrap() on a None value"
  | .ok (some values) =>
    match values with
    | .n1c1t1 vs => .ok (vs.map fun v => v.position)
    | .n1c1t2 vs => .ok (vs.map fun v => v.position)
    | .n1w3c1t1 vs => .ok (vs.map fun v => v.position)
    | .n1w3c1t2 vs => .ok (vs.map fun v => v.position)
    | .tlc2t2 vs => .ok (vs.map fun v => v.position)
    | .c1 _ => .panicked "not yet implemented"
    | .c1t1 _ => .panicked "not yet implemented"

/-- State of a seekable in-memory byte reader (the binrw reader over the
fully loaded file that src/formats/types.rs parses from): a cursor
position and the underlying bytes. -/
structure Reader where
  pos : Nat
  data : List Nat
deriving Repr, DecidableEq

/-- Reading one u32 at the cursor: consumes exactly four bytes, assembled
according to the endianness argument, and fails without moving when fewer
than four bytes remain. -/
def read_u32 (endian : Endian) (r : Reader) : Except String Nat × Reader :=
  match r.data[r.pos]?, r.data[r.pos + 1]?, r.data[r.pos + 2]?,
      r.data[r.pos + 3]? with
  | some b0, some b1, some b2, some b3 =>
    (Except.ok
      (match endian with
        | .big => ((b0 * 256 + b1) * 256 + b2) * 256 + b3
        | .little => ((b3 * 256 + b2) * 256 + b1) * 256 + b0),
     { r with pos := r.pos + 4 })
  | _, _, _, _ => (Except.error "failed to fill whole buffer", r)

/-- Seek to an absolute position (SeekFrom::Start), which always succeeds
on an in-memory cursor. -/
def seek_start (n : Nat) (r : Reader) : Reader := { r with pos := n }

/-- The NullableFilePtr parse result of src/formats/types.rs: the stored
32-bit pointer and the value behind it, absent for a null pointer. -/
structure NullableFilePtr (α : Type) where
  ptr : Nat
  value : Option α
deriving Repr, DecidableEq

/-- NullableFilePtr::read_options of src/formats/types.rs: read the u32
pointer; when it is zero the value is None; otherwise remember the current
stream position, seek to the pointer target, run the inner read (an
arbitrary stateful parser, passed as read_value), seek back to the
remembered position, and only then propagate an inner failure. -/
def NullableFilePtr.read_options {α : Type}
    (read_value : Reader → Except String α × Reader) (endian : Endian)
    (r : Reader) : Except String (NullableFilePtr α) × Reader :=
  match read_u32 endian r with
  | (.error e, r1) => (.error e, r1)
  | (.ok ptr, r1) =>
    if ptr = 0 then (.ok ⟨ptr, none⟩, r1)
    else
      let before := r1.pos
      let r2 := seek_start ptr r1
      let (value, r3) := read_value r2
      let r4 := seek_start before r3
      match value with
      | .ok v => (.ok ⟨ptr, some v⟩, r4)
      | .error e => (.error e, r4)

/-- Element memory used by the C2 relocation scenario: zero everywhere
(the blob there has length 10 and base address 100; the stored offset is
1000 with 5 elements of size 4). -/
def c2mem : Nat → Nat := fun _ => 0

/-- Concrete mesh for C3: bone_count is 3 but every pointer field stores
the null offset 0. -/
def c3mesh : FMesh :=
  { bone_count := 3, segment_count := 0, tex_layer_id_count := 0,
    light_count := 0, material_count := 0, coll_tree_count := 0,
    segment_array := 0, bone_array := 0, light_array := 0,
    skeleton_index_array := 0, material_array := 0, collision_tree := 0,
    tex_layer_array := 0 }

/-- Bone element memory for C3 (contents irrelevant, the pointer is null). -/
def c3mem : Nat → Nat := fun _ => 0

/-- Concrete mesh for C6: a single non-null stored offset 4 in the bone
pointer field. -/
def c6mesh : FMesh :=
  { bone_count := 1, segment_count := 0, tex_layer_id_count := 0,
    light_count := 0, material_count := 0, coll_tree_count := 0,
    segment_array := 0, bone_array := 4, light_array := 0,
    skeleton_index_array := 0, material_array := 0, collision_tree := 0,
    tex_layer_array := 0 }

/-- Concrete mesh for C7: the skeleton-index array lives at address 10 and
is 2 bytes long in the scenario; index 5 addresses byte 15, outside it. -/
def c7mesh : FMesh :=
  { bone_count := 1, segment_count := 0, tex_layer_id_count := 0,
    light_count := 0, material_count := 0, coll_tree_count := 0,
    segment_array := 0, bone_array := 0, light_array := 0,
    skeleton_index_array := 10, material_array := 0, collision_tree := 0,
    tex_layer_array := 0 }

/-- Memory for C7 that is zero everywhere. -/
def c7memA : Nat → Nat := fun _ => 0

/-- Memory for C7 that agrees with c7memA on the 2-byte array at 10..11
but differs at address 15, beyond the array. -/
def c7memB : Nat → Nat := fun a => if a = 15 then 99 else 0

/-- The concrete input on which the two GameCube decode paths disagree: a
non-skinned S16 buffer holding the single element (256, 256, 256) with 8
fractional bits. -/
def c4buffer : GxVertexBuffer :=
  { skinned := false, position_type := 3, position_fraction_bits := 8,
    position_buffer := some (.s16 [⟨256, 256, 256⟩]) }

/-- Concrete buffer for C5: position-type tag 99, outside every GxCompType
discriminant. -/
def c5buffer : GxVertexBuffer :=
  { skinned := false, position_type := 99, position_fraction_bits := 0,
    position_buffer := some (.s16 [⟨1, 2, 3⟩]) }

/-- Concrete descriptor for C8: the Shader sentinel tag with a null vertex
buffer. -/
def c8shader : DxVertexBufferDescriptor :=
  { vertex_count := 3, bytes_per_vertex := 32, info_index := -1,
    vertex_buffer := none }

/-- Bytes for the C10 witness: a big-endian pointer 8 at the start,
filler, and a u32 payload at offset 8. -/
def c10data : List Nat := [0, 0, 0, 8, 9, 9, 9, 9, 1, 2, 3, 4]

/-- Inner value parser for the C10 witness: reads one big-endian u32 at
the target. -/
def c10inner : Reader → Except String Nat × Reader := fun r =>
  read_u32 Endian.big r

/-- Byte-reversing the null pointer yields the null pointer. -/
theorem swap32_zero : swap32 0 = 0 := rfl

/-- C1, counterexample: in repack/src/st.rs the byte-swap pass does not
run on a little-endian host, refuting the claim that for every loader the
swap pass runs exactly when the host is not big-endian. -/
theorem c1_counterexample :
    ¬ (stSwapRuns Endian.little = true ↔ Endian.little ≠ Endian.big) := by
  decide

/-- C1, amended: the repack GameCube loader (raw.rs) and the cursor-era
loader (formats/mesh/raw.rs) run the byte-swap pass exactly when the host
is not big-endian, while the repack DirectX loader (st.rs) runs it exactly
when the host is not little-endian; in each Fixable::fix the conditional
swap of a structure is applied in full before its offset fields are added
to the base, so whenever the swap runs, the value handed to fix_offset is
the byte-swapped stored offset. -/
theorem c1_swap_before_relocate (host : Endian) (m : FMesh) (base : Nat) :
    (rawSwapRuns host = true ↔ host ≠ Endian.big)
    ∧ (meshRawSwapRuns host = true ↔ host ≠ Endian.big)
    ∧ (stSwapRuns host = true ↔ host ≠ Endian.little)
    ∧ m.stFix host base
        = FMesh.fixOffset (if stSwapRuns host then m.swapBytes else m) base
    ∧ m.rawFix host base
        = FMesh.fixOffset (if rawSwapRuns host then m.swapBytes else m) base
    ∧ (m.rawFix Endian.little base).bone_array
        = fix_offset (swap32 m.bone_array) base
    ∧ (m.stFix Endian.big base).bone_array
        = fix_offset (swap32 m.bone_array) base
    ∧ (m.stFix Endian.little base).bone_array
        = fix_offset m.bone_array base := by
  cases host <;>
    exact ⟨by decide, by decide, by decide, rfl, rfl, rfl, rfl, rfl⟩

/-- C2, counterexample: for a blob of length 10 based at address 100, the
stored offset 1000 with 5 elements of size 4 relocates to the non-null
pointer 1100, whose byte range lies entirely outside the blob, and
try_fix_array still hands out the element list; no TruncatedBuffer or
MalformedOffset failure exists anywhere on this path. -/
theorem c2_counterexample :
    fix_offset 1000 100 = 1100
    ∧ fix_offset 1000 100 ≠ 0
    ∧ 100 + 10 < fix_offset 1000 100 + 5 * 4
    ∧ (try_fix_array c2mem id 4 1000 100 5).2 = some [0, 0, 0, 0, 0] := by
  exact ⟨rfl, by decide, by decide, rfl⟩

/-- C2, amended: relocation performs no bounds validation at all.  For
every non-null stored offset, fix_offset unconditionally returns
base + offset, which is never null, and try_fix_array returns that pointer
and the fixed elements for every length, independent of any blob bound;
there is no failure outcome. -/
theorem c2_no_validation {α : Type} (mem : Nat → α) (elemFix : α → α)
    (elemSize offset base length : Nat) (h : offset ≠ 0) :
    fix_offset offset base = base + offset
    ∧ fix_offset offset base ≠ 0
    ∧ (try_fix_array mem elemFix elemSize offset base length).1 = base + offset
    ∧ (try_fix_array mem elemFix elemSize offset base length).2
        = some (((List.range length).map fun i =>
            mem (base + offset + i * elemSize)).map elemFix) := by
  have hp : fix_offset offset base = base + offset := by simp [fix_offset, h]
  have hnz : base + offset ≠ 0 := by omega
  refine ⟨hp, by omega, ?_, ?_⟩ <;>
    simp [try_fix_array, array_ptr, hp, hnz]

/-- C2, witness for the amended theorem at the concrete counterexample
input. -/
theorem c2_witness :
    (1000 : Nat) ≠ 0
    ∧ (fix_offset 1000 100 = 100 + 1000
        ∧ fix_offset 1000 100 ≠ 0
        ∧ (try_fix_array c2mem id 4 1000 100 5).1 = 100 + 1000
        ∧ (try_fix_array c2mem id 4 1000 100 5).2
            = some (((List.range 5).map fun i =>
                c2mem (100 + 1000 + i * 4)).map id)) :=
  ⟨by decide, c2_no_validation c2mem id 4 1000 100 5 (by decide)⟩

/-- C3, counterexample: with a zero stored bone offset and bone_count 3,
relocation leaves the pointer null (the base is not added), but the bones
accessor then returns None, not an empty sequence: None and some [] are
different results of the Option-returning accessor. -/
theorem c3_counterexample :
    c3mesh.bone_count = 3
    ∧ (c3mesh.stFix Endian.little 100).bone_array = 0
    ∧ (c3mesh.stFix Endian.little 100).bones c3mem 1 = none
    ∧ (c3mesh.stFix Endian.little 100).bones c3mem 1 ≠ some [] := by
  exact ⟨rfl, rfl, rfl, by decide⟩

/-- C3, amended: a zero stored offset always relocates to the null
pointer without the base being added, regardless of any nonzero sibling
count field, and the document accessor then returns None (no slice is
produced), which callers observe as the absence of elements. -/
theorem c3_null_offset {α : Type} (m : FMesh) (host : Endian) (base : Nat)
    (mem : Nat → α) (sz : Nat) (h : m.bone_array = 0) :
    fix_offset 0 base = 0
    ∧ (m.stFix host base).bone_array = 0
    ∧ (m.stFix host base).bones mem sz = none := by
  have hswap : (if stSwapRuns host then m.swapBytes else m).bone_array = 0 := by
    cases host <;> simp [stSwapRuns, FMesh.swapBytes, h, swap32_zero]
  refine ⟨rfl, ?_, ?_⟩
  · simp [FMesh.stFix, FMesh.fixOffset, hswap, fix_offset]
  · simp [FMesh.bones, FMesh.stFix, FMesh.fixOffset, hswap, fix_offset,
      array_ptr]

/-- C3, witness for the amended theorem at the concrete mesh. -/
theorem c3_witness :
    c3mesh.bone_array = 0
    ∧ (fix_offset 0 7 = 0
        ∧ (c3mesh.stFix Endian.big 7).bone_array = 0
        ∧ (c3mesh.stFix Endian.big 7).bones c3mem 1 = none) :=
  ⟨rfl, c3_null_offset c3mesh Endian.big 7 c3mem 1 rfl⟩

/-- C6, counterexample: applying the relocation pass twice with base 100
to the stored offset 4 yields 204, not the once-relocated 104 — the base
is added a second time, and no DoubleRelocation failure interrupts it. -/
theorem c6_counterexample :
    fix_offset 4 100 = 104
    ∧ fix_offset (fix_offset 4 100) 100 = 204
    ∧ fix_offset (fix_offset 4 100) 100 ≠ fix_offset 4 100
    ∧ ((c6mesh.fixOffset 100).fixOffset 100).bone_array = 204 := by
  decide

/-- C6, amended: re-running the relocation pass is neither rejected nor a
no-op: every non-null pointer gets the base added again (the value becomes
base + (base + offset)), which differs from the once-relocated value for
every nonzero base. -/
theorem c6_second_relocation_readds_base (offset base : Nat)
    (h : offset ≠ 0) :
    fix_offset (fix_offset offset base) base = base + (base + offset)
    ∧ (base ≠ 0 →
        fix_offset (fix_offset offset base) base ≠ fix_offset offset base) := by
  have h1 : fix_offset offset base = base + offset := by simp [fix_offset, h]
  have h2 : base + offset ≠ 0 := by omega
  refine ⟨by rw [h1]; simp [fix_offset, h2], ?_⟩
  intro hb
  rw [h1]
  simp only [fix_offset, if_neg h2]
  omega

/-- C6, witness for the amended theorem at offset 4, base 100. -/
theorem c6_witness :
    (4 : Nat) ≠ 0
    ∧ (fix_offset (fix_offset 4 100) 100 = 100 + (100 + 4)
        ∧ ((100 : Nat) ≠ 0 →
            fix_offset (fix_offset 4 100) 100 ≠ fix_offset 4 100)) :=
  ⟨by decide, c6_second_relocation_readds_base 4 100 (by decide)⟩

/-- C7, counterexample: for a 2-byte skeleton-index array at address 10,
skeleton_index 5 returns some value instead of an out-of-range condition,
and the value returned depends on memory beyond the array (the two
memories agree on the whole array yet produce different results), so the
read goes past the buffer. -/
theorem c7_counterexample :
    c7mesh.skeleton_index_array = 10
    ∧ c7memA 10 = c7memB 10
    ∧ c7memA 11 = c7memB 11
    ∧ c7mesh.skeleton_index c7memA 5 = some 0
    ∧ c7mesh.skeleton_index c7memB 5 = some 99
    ∧ c7mesh.skeleton_index c7memA 5 ≠ c7mesh.skeleton_index c7memB 5 := by
  exact ⟨rfl, rfl, rfl, rfl, rfl, by decide⟩

/-- C7, amended: skeleton_index returns None only when the array pointer
is null; for a non-null pointer it unconditionally reads the byte at
array + index — the structure stores no length for this array and no
bounds check of any kind is performed. -/
theorem c7_skeleton_index_unchecked (m : FMesh) (mem : Nat → Nat)
    (index : Nat) :
    (m.skeleton_index_array = 0 → m.skeleton_index mem index = none)
    ∧ (m.skeleton_index_array ≠ 0 →
        m.skeleton_index mem index
          = some (mem (m.skeleton_index_array + index))) := by
  constructor <;> intro h <;> simp [FMesh.skeleton_index, h]

/-- C7, witness for the amended theorem at the concrete mesh and memory. -/
theorem c7_witness :
    (c7mesh.skeleton_index_array = 0 →
        c7mesh.skeleton_index c7memB 5 = none)
    ∧ (c7mesh.skeleton_index_array ≠ 0 →
        c7mesh.skeleton_index c7memB 5
          = some (c7memB (c7mesh.skeleton_index_array + 5))) :=
  c7_skeleton_index_unchecked c7mesh c7memB 5

/-- Entry k of the POS_FRACTIONAL_ADJUSTMENT table is the reciprocal of
2 to the k, for every k below 16. -/
theorem pos_fractional_adjustment_eq (k : Nat) (h : k < 16) :
    POS_FRACTIONAL_ADJUSTMENT[k]? = some (1 / 2 ^ k) := by
  interval_cases k <;> norm_num [POS_FRACTIONAL_ADJUSTMENT]

/-- Single-index decode of a non-skinned S16 buffer: the element at the
index, each component cast to f32 and multiplied by the table entry for
the fractional-bits value. -/
theorem gx_get_position_s16 (vs : List GxPosS16) (k i : Nat) (h : k < 16) :
    (GxVertexBuffer.mk false 3 k (some (.s16 vs))).get_position i
      = .ok ((vs[i]?).map fun v =>
          ⟨(v.x : ℚ) * (1 / 2 ^ k), (v.y : ℚ) * (1 / 2 ^ k),
           (v.z : ℚ) * (1 / 2 ^ k)⟩) := by
  have hstep : (GxVertexBuffer.mk false 3 k (some (.s16 vs))).get_position i
      = match POS_FRACTIONAL_ADJUSTMENT[k]? with
        | none => .panicked "Missing fractional adjustment for vertex buffer"
        | some adjust =>
          .ok ((vs[i]?).map fun v =>
            ⟨(v.x : ℚ) * adjust, (v.y : ℚ) * adjust, (v.z : ℚ) * adjust⟩) :=
    rfl
  rw [hstep, pos_fractional_adjustment_eq k h]

/-- C4: on the S16 buffer with element (256, 256, 256) and 8 fractional
bits, the bulk decode (normalized) yields the unscaled (256, 256, 256) —
the source binds the adjustment and never applies it — while the
single-index decode (get_position) yields the scaled (1, 1, 1); the two
access modes disagree on the same in-range element, against both the claim
and the apparent intent of the source (the unused adjustment binding). -/
theorem c4_bulk_single_divergence :
    c4buffer.normalized = .ok [⟨256, 256, 256⟩]
    ∧ c4buffer.get_position 0 = .ok (some ⟨1, 1, 1⟩)
    ∧ (⟨256, 256, 256⟩ : GxPosF32) ≠ ⟨1, 1, 1⟩ := by
  refine ⟨?_, ?_, ?_⟩
  · have hstep : c4buffer.normalized
        = match POS_FRACTIONAL_ADJUSTMENT[(8 : Nat)]? with
          | none => .panicked "Missing fractional adjustment for vertex buffer"
          | some _adjust =>
            .ok ([(⟨256, 256, 256⟩ : GxPosS16)].map fun v =>
              ⟨(v.x : ℚ), (v.y : ℚ), (v.z : ℚ)⟩) := rfl
    rw [hstep, pos_fractional_adjustment_eq 8 (by norm_num)]
    norm_num
  · have hstep : c4buffer.get_position 0
        = match POS_FRACTIONAL_ADJUSTMENT[(8 : Nat)]? with
          | none => .panicked "Missing fractional adjustment for vertex buffer"
          | some adjust =>
            .ok (([(⟨256, 256, 256⟩ : GxPosS16)][0]?).map fun v =>
              ⟨(v.x : ℚ) * adjust, (v.y : ℚ) * adjust, (v.z : ℚ) * adjust⟩) :=
      rfl
    rw [hstep, pos_fractional_adjustment_eq 8 (by norm_num)]
    norm_num
  · intro hh
    injection hh with h1 h2 h3
    norm_num at h1

/-- C5, counterexample: a position-type tag of 99 makes positions hit the
wildcard arm and panic with the message of the source, instead of
returning an UnsupportedTag error value (no such error type exists in the
code) — refuting the never-panics part of the claim. -/
theorem c5_counterexample :
    c5buffer.positions = .panicked "Unsupported vertex position data type" := by
  rfl

/-- C5, amended: every position-type tag other than S8 (1), S16 (3) and
F32 (4) — which includes the in-enum tags U8 (0) and U16 (2) as well as
out-of-range values such as 99 — causes position decoding to panic with
the wildcard-arm message; no UnsupportedTag error value is produced and no
default zero-filled positions are substituted. -/
theorem c5_unsupported_tag_panics (vb : GxVertexBuffer)
    (h1 : vb.position_type ≠ 1) (h3 : vb.position_type ≠ 3)
    (h4 : vb.position_type ≠ 4) :
    vb.positions = .panicked "Unsupported vertex position data type" := by
  unfold GxVertexBuffer.positions
  split <;> simp_all

/-- C5, witness for the amended theorem at the concrete tag-99 buffer. -/
theorem c5_witness :
    (c5buffer.position_type ≠ 1 ∧ c5buffer.position_type ≠ 3
        ∧ c5buffer.position_type ≠ 4)
    ∧ c5buffer.positions = .panicked "Unsupported vertex position data type" :=
  ⟨⟨by decide, by decide, by decide⟩,
    c5_unsupported_tag_panics c5buffer (by decide) (by decide) (by decide)⟩

/-- C9: single-index decode of a non-float (S16) GameCube position
multiplies each raw component, cast to f32, by the precomputed table entry
for the fractional-bits value, which equals the reciprocal of 2 to that
value; in particular the raw value 256 with 8 fractional bits decodes to
exactly 1, and with 0 fractional bits any raw value decodes to exactly
itself.  The f32 operations involved are exact, so the rational model is
bit-faithful. -/
theorem c9_fixed_point_scaling (vs : List GxPosS16) (k i : Nat) (n : Int)
    (h : k < 16) :
    POS_FRACTIONAL_ADJUSTMENT[k]? = some (1 / 2 ^ k)
    ∧ (GxVertexBuffer.mk false 3 k (some (.s16 vs))).get_position i
        = .ok ((vs[i]?).map fun v =>
            ⟨(v.x : ℚ) * (1 / 2 ^ k), (v.y : ℚ) * (1 / 2 ^ k),
             (v.z : ℚ) * (1 / 2 ^ k)⟩)
    ∧ (GxVertexBuffer.mk false 3 8
          (some (.s16 [⟨256, 256, 256⟩]))).get_position 0
        = .ok (some ⟨1, 1, 1⟩)
    ∧ (GxVertexBuffer.mk false 3 0
          (some (.s16 [⟨n, n, n⟩]))).get_position 0
        = .ok (some ⟨(n : ℚ), (n : ℚ), (n : ℚ)⟩) := by
  refine ⟨pos_fractional_adjustment_eq k h, gx_get_position_s16 vs k i h,
    ?_, ?_⟩
  · have h8 := gx_get_position_s16 [⟨256, 256, 256⟩] 8 0 (by norm_num)
    rw [h8]
    norm_num
  · have h0 := gx_get_position_s16 [⟨n, n, n⟩] 0 0 (by norm_num)
    rw [h0]
    norm_num

/-- C9, witness for the theorem at a concrete buffer and index. -/
theorem c9_witness :
    (3 : Nat) < 16
    ∧ (POS_FRACTIONAL_ADJUSTMENT[3]? = some (1 / 2 ^ 3)
        ∧ (GxVertexBuffer.mk false 3 3
              (some (.s16 [⟨8, 16, 24⟩]))).get_position 0
            = .ok (([(⟨8, 16, 24⟩ : GxPosS16)][0]?).map fun v =>
                ⟨(v.x : ℚ) * (1 / 2 ^ 3), (v.y : ℚ) * (1 / 2 ^ 3),
                 (v.z : ℚ) * (1 / 2 ^ 3)⟩)
        ∧ (GxVertexBuffer.mk false 3 8
              (some (.s16 [⟨256, 256, 256⟩]))).get_position 0
            = .ok (some ⟨1, 1, 1⟩)
        ∧ (GxVertexBuffer.mk false 3 0
              (some (.s16 [⟨7, 7, 7⟩]))).get_position 0
            = .ok (some ⟨(7 : ℚ), (7 : ℚ), (7 : ℚ)⟩)) :=
  ⟨by decide, c9_fixed_point_scaling [⟨8, 16, 24⟩] 3 0 7 (by decide)⟩

/-- C8, counterexample: on a Shader-tagged buffer, buffer_values does
return the unavailable result None, but the positions decode operation
unwraps that None and panics instead of returning an unavailable or empty
result — refuting the every-decode-operation part of the claim. -/
theorem c8_counterexample :
    c8shader.buffer_values = .ok none
    ∧ c8shader.positions
        = .panicked "called Option::unwrap() on a None value" := by
  exact ⟨rfl, rfl⟩

/-- C8, amended: for every descriptor whose layout tag is the Shader
sentinel (-1), decoded record access (buffer_values) returns None without
error or panic, while position extraction (positions) panics by unwrapping
that None. -/
theorem c8_shader_positions_panic (d : DxVertexBufferDescriptor)
    (h : d.info_index = -1) :
    d.buffer_values = .ok none
    ∧ d.positions = .panicked "called Option::unwrap() on a None value" := by
  have hb : d.buffer_values = .ok none := by
    unfold DxVertexBufferDescriptor.buffer_values
    rw [h]
    rfl
  refine ⟨hb, ?_⟩
  unfold DxVertexBufferDescriptor.positions
  rw [hb]

/-- C8, witness for the amended theorem at the concrete Shader buffer. -/
theorem c8_witness :
    c8shader.info_index = -1
    ∧ (c8shader.buffer_values = .ok none
        ∧ c8shader.positions
            = .panicked "called Option::unwrap() on a None value") :=
  ⟨rfl, c8_shader_positions_panic c8shader rfl⟩

/-- A successful u32 read advances the cursor by exactly four bytes. -/
theorem read_u32_ok_pos (endian : Endian) (r : Reader) (x : Nat)
    (r1 : Reader) (h : read_u32 endian r = (.ok x, r1)) :
    r1.pos = r.pos + 4 := by
  unfold read_u32 at h
  split at h
  · simp only [Prod.mk.injEq] at h
    rw [← h.2]
  · simp at h

/-- C10: every successful NullableFilePtr read leaves the stream position
exactly four bytes past where it started, for every endianness, every
reader state and every inner value parser, whether the stored pointer is
null or not: the seek to the pointer target is always undone before the
function returns. -/
theorem c10_pointer_read_preserves_position {α : Type}
    (read_value : Reader → Except String α × Reader) (endian : Endian)
    (r : Reader) (res : NullableFilePtr α) (r2 : Reader)
    (h : NullableFilePtr.read_options read_value endian r = (.ok res, r2)) :
    r2.pos = r.pos + 4 := by
  unfold NullableFilePtr.read_options at h
  rcases hread : read_u32 endian r with ⟨exv, r1⟩
  rw [hread] at h
  cases exv with
  | error e =>
    replace h : ((Except.error e : Except String (NullableFilePtr α)), r1)
        = (Except.ok res, r2) := h
    simp at h
  | ok ptr =>
    have hp := read_u32_ok_pos endian r ptr r1 hread
    replace h :
        (if ptr = 0 then
            ((Except.ok ⟨ptr, none⟩ : Except String (NullableFilePtr α)), r1)
          else
            match read_value (seek_start ptr r1) with
            | (value, r3) =>
              match value with
              | Except.ok v => (Except.ok ⟨ptr, some v⟩, seek_start r1.pos r3)
              | Except.error e => (Except.error e, seek_start r1.pos r3))
          = (Except.ok res, r2) := h
    by_cases hz : ptr = 0
    · rw [if_pos hz] at h
      simp only [Prod.mk.injEq] at h
      rw [← h.2]
      exact hp
    · rw [if_neg hz] at h
      rcases hrv : read_value (seek_start ptr r1) with ⟨value, r3⟩
      rw [hrv] at h
      cases value with
      | ok v =>
        replace h :
            ((Except.ok ⟨ptr, some v⟩ : Except String (NullableFilePtr α)),
              seek_start r1.pos r3) = (Except.ok res, r2) := h
        simp only [Prod.mk.injEq] at h
        rw [← h.2]
        simpa [seek_start] using hp
      | error e =>
        replace h :
            ((Except.error e : Except String (NullableFilePtr α)),
              seek_start r1.pos r3) = (Except.ok res, r2) := h
        simp at h

/-- C10, witness for the theorem at a concrete reader, with a non-null
stored pointer and an inner u32 parser. -/
theorem c10_witness :
    NullableFilePtr.read_options c10inner Endian.big ⟨0, c10data⟩
        = (Except.ok ⟨8, some 16909060⟩, (⟨4, c10data⟩ : Reader))
    ∧ (⟨4, c10data⟩ : Reader).pos = (⟨0, c10data⟩ : Reader).pos + 4 :=
  ⟨by rfl,
    c10_pointer_read_preserves_position c10inner Endian.big ⟨0, c10data⟩
      ⟨8, some 16909060⟩ ⟨4, c10data⟩ (by rfl)⟩
